import Mathlib

/-!
Verification of the PyFreeLeh Google Sheet wrapper layer
(`src/pyfreeleh/providers/google/sheet/wrapper.py` and `src/pyfreeleh/base.py`).

The Python code is shallowly embedded: Python values flowing through the
decoder are modelled by the closed universe `PyVal`; code that can raise is
embedded as `Except PyError`; the external Google Sheets service is a function
parameter supplied by the caller of each embedded operation.  The record types
`A1Range`, `InsertRowsResult`, `UpdateRowsResult` and `BatchUpdateRowsRequest`
are imported by the source from `pyfreeleh/providers/google/sheet/base.py`,
which is not part of the sources at hand; they are modelled from the
specification, as marked on each such definition.
-/

/-- Python exception classes that the embedded code can raise.  `valueError`,
`keyError`, `indexError` and `attributeError` embed the built-in exceptions of
the same names; `invalidOperationError` and `keyNotFoundError` embed the
classes defined in `pyfreeleh/base.py`; `serviceError` stands for any opaque
failure coming back from the remote spreadsheet service.  All of these are
`Exception` subclasses in Python; `BaseException`s that are not `Exception`s
(`KeyboardInterrupt`, `SystemExit`) are not modelled. -/
inductive PyError where
  | valueError (msg : String)
  | keyError (key : String)
  | indexError (msg : String)
  | attributeError (attr : String)
  | invalidOperationError (msg : String)
  | keyNotFoundError (msg : String)
  | serviceError (msg : String)
deriving DecidableEq

/-- A Python `float`.  The decoder only ever produces a float by calling
`float(...)` on a formatted string and hands the result straight back to the
caller; no claim inspects the numeric value, so the float is identified by the
literal it was parsed from and IEEE-754 semantics are left uninterpreted. -/
structure PyFloat where
  lit : String
deriving DecidableEq

/-- The universe of Python scalar values the decoder consumes and produces:
`None`, booleans, integers, floats and strings. -/
inductive PyVal where
  | none
  | bool (b : Bool)
  | int (n : Int)
  | float (x : PyFloat)
  | str (s : String)
deriving DecidableEq

/-- Value of a nonempty digit string, most significant digit first. -/
def digitsVal (ds : List Char) : Nat :=
  ds.foldl (fun a c => a * 10 + (c.toNat - 48)) 0

/-- An unsigned decimal literal: nonempty and all digits. -/
def pyUnsigned (ds : List Char) : Option Nat :=
  if ds ≠ [] ∧ ds.all Char.isDigit then some (digitsVal ds) else none

/-- Python `int(s)` for a `str` argument: surrounding whitespace is stripped,
an optional sign is followed by a nonempty run of decimal digits, and anything
else raises `ValueError`.  (Underscore digit separators and non-ASCII digits,
which Python also accepts, are not modelled; no claim depends on them.) -/
def pyInt (s : String) : Except PyError Int :=
  match s.trim.toList with
  | '-' :: ds =>
    match pyUnsigned ds with
    | some n => .ok (-(n : Int))
    | Option.none => .error (.valueError ("invalid literal for int() with base 10: " ++ s))
  | '+' :: ds =>
    match pyUnsigned ds with
    | some n => .ok (n : Int)
    | Option.none => .error (.valueError ("invalid literal for int() with base 10: " ++ s))
  | ds =>
    match pyUnsigned ds with
    | some n => .ok (n : Int)
    | Option.none => .error (.valueError ("invalid literal for int() with base 10: " ++ s))

/-- Python `float(s)` for a `str` argument.  Per the `PyFloat` model the result
is identified by the parsed literal; `float(...)` failures are not modelled
(no claim depends on them), so the parse always succeeds. -/
def pyFloat (s : String) : Except PyError PyFloat :=
  .ok { lit := s }

/-- Modelled from the spec: `A1Range` from
`pyfreeleh/providers/google/sheet/base.py`, a module the sources at hand do
not include.  Spec section 3 describes it as an immutable value type whose
text form round-trips losslessly and which is compared structurally.  No claim
settled here depends on the parsed sheet/column/row fields, so a range is
represented by its notation text, for which formatting is the identity and the
round-trip is trivial. -/
structure A1Range where
  original : String
deriving DecidableEq

/-- Modelled from the spec: `A1Range.from_notation`, the parser from the same
missing module.  Under the representation above it records the text. -/
def A1Range.ofText (s : String) : A1Range :=
  { original := s }

/-- Modelled from the spec: `InsertRowsResult` from the same missing module.
Its fields are exactly the keyword arguments `GoogleSheetWrapper._insert_rows`
constructs it with (spec section 3: affected range, counts, and the post-write
values confirmed by the service). -/
structure InsertRowsResult where
  updated_range : A1Range
  updated_rows : Int
  updated_columns : Int
  updated_cells : Int
  inserted_values : List (List PyVal)
deriving DecidableEq

/-- Modelled from the spec: `UpdateRowsResult` from the same missing module,
with the fields `GoogleSheetWrapper.update_rows` and
`GoogleSheetWrapper.batch_update_rows` construct it with. -/
structure UpdateRowsResult where
  updated_range : A1Range
  updated_rows : Int
  updated_columns : Int
  updated_cells : Int
  updated_values : List (List PyVal)
deriving DecidableEq

/-- Modelled from the spec: `BatchUpdateRowsRequest` from the same missing
module: one (range, values) pair per update request. -/
structure BatchUpdateRowsRequest where
  range : A1Range
  values : List (List PyVal)
deriving DecidableEq

/-- One entry of the `responses` list in the service reply to
`values().batchUpdate`: the raw fields `batch_update_rows` reads from it.
`updatedDataValues` models `response["updatedData"].get("values", [])`, whose
`values` key may be absent (`none`).  The reply is assumed well-formed in the
other keys, which the code reads unconditionally. -/
structure UpdateValuesResponse where
  updatedRange : String
  updatedRows : Int
  updatedColumns : Int
  updatedCells : Int
  updatedDataValues : Option (List (List PyVal))
deriving DecidableEq

/-- The loop body of `GoogleSheetWrapper.batch_update_rows`: build one
`UpdateRowsResult` from one response entry. -/
def mkUpdateRowsResult (r : UpdateValuesResponse) : UpdateRowsResult :=
  { updated_range := A1Range.ofText r.updatedRange
    updated_rows := r.updatedRows
    updated_columns := r.updatedColumns
    updated_cells := r.updatedCells
    updated_values := r.updatedDataValues.getD [] }

/-- `GoogleSheetWrapper.batch_update_rows`.  The remote call is modelled by
`service`, a function from the submitted request list to the `responses` list
of the service reply (the fixed body constants — value render option, input
option, major dimension — are the same on every call and are absorbed into
`service`; a transport failure would propagate before the loop runs, so the
embedding is conditioned on a reply arriving).  The code then builds one
result per RESPONSE entry, in response order. -/
def batch_update_rows
    (service : List BatchUpdateRowsRequest → List UpdateValuesResponse)
    (requests : List BatchUpdateRowsRequest) : List UpdateRowsResult :=
  (service requests).map mkUpdateRowsResult

/-- A column object of a gviz query reply, with the two keys
`GoogleSheetWrapper._convert_query_result` and `_parse_cell` read. -/
structure QueryCol where
  id : String
  type : String
deriving DecidableEq

/-- A non-falsy cell object of a gviz query reply: the raw value `v` (present
but possibly JSON null, i.e. `PyVal.none`) and the formatted value `f`, whose
key may be absent (`none`; reading it then raises `KeyError`). -/
structure Cell where
  v : PyVal
  f : Option String
deriving DecidableEq

/-- A row object of a gviz query reply; `c` is its cell list, where `none`
stands for a falsy cell (JSON `null` or an empty object). -/
structure QueryRow where
  c : List (Option Cell)
deriving DecidableEq

/-- The `table` object of a gviz query reply, after
`GoogleSheetWrapper._convert_query_result` has sliced the `freeleh(...)`
wrapper off the HTTP body and run `json.loads` (the slicing and JSON parsing
are delegated to Python's standard library and are not modelled; the embedding
starts from the parsed table). -/
structure QueryTable where
  cols : List QueryCol
  rows : List QueryRow
deriving DecidableEq

/-- `cell["f"]`: `KeyError` when the key is absent. -/
def Cell.getF (c : Cell) : Except PyError String :=
  match c.f with
  | some f => .ok f
  | Option.none => .error (.keyError "f")

/-- `GoogleSheetWrapper._parse_cell`.  A falsy `cell` argument (`none`) or a
cell whose raw value is JSON null returns Python `None`.  Otherwise the branch
is chosen by the column's declared `type`: `boolean` and `string` return the
raw value as-is; `number` parses the FORMATTED string, as a float when it
contains a `.` and with `int(...)` otherwise; `date`, `datetime` and
`timeofday` return the formatted string; any other type raises
`ValueError("cell type {typ} is not supported")`. -/
def parse_cell (cell : Option Cell) (col : QueryCol) : Except PyError PyVal :=
  match cell with
  | Option.none => .ok PyVal.none
  | some c =>
    if c.v = PyVal.none then .ok PyVal.none
    else
      let typ := col.type
      if typ = "boolean" then .ok c.v
      else if typ = "number" then
        match c.getF with
        | .error e => .error e
        | .ok f =>
          if f.contains '.' then
            match pyFloat f with
            | .error e => .error e
            | .ok x => .ok (PyVal.float x)
          else
            match pyInt f with
            | .error e => .error e
            | .ok n => .ok (PyVal.int n)
      else if typ = "string" then .ok c.v
      else if typ ∈ (["date", "datetime", "timeofday"] : List String) then
        match c.getF with
        | .error e => .error e
        | .ok f => .ok (PyVal.str f)
      else .error (.valueError ("cell type " ++ typ ++ " is not supported"))

/-- The inner loop of `GoogleSheetWrapper._convert_query_result`, walking one
row's cell list with its enumeration index: a falsy cell is skipped
(`if not cell: continue` — its column contributes no entry), otherwise
`cols[cell_idx]` is read (`IndexError` past the end) and the parsed value is
stored under the column's `id`.  The Python dict is modelled as the list of
its entries in insertion order; gviz column ids are distinct, so duplicate
keys do not arise. -/
def convertCells (cols : List QueryCol) : Nat → List (Option Cell) → Except PyError (List (String × PyVal))
  | _, [] => .ok []
  | i, Option.none :: rest => convertCells cols (i + 1) rest
  | i, some cell :: rest =>
    match cols[i]? with
    | Option.none => .error (.indexError "list index out of range")
    | some col =>
      match parse_cell (some cell) col with
      | .error e => .error e
      | .ok v =>
        match convertCells cols (i + 1) rest with
        | .error e => .error e
        | .ok m => .ok ((col.id, v) :: m)

/-- The outer loop of `_convert_query_result`: one decoded row mapping per row
object, in row order; an exception raised on any cell propagates out of the
whole conversion. -/
def convertRows (cols : List QueryCol) : List QueryRow → Except PyError (List (List (String × PyVal)))
  | [] => .ok []
  | r :: rs =>
    match convertCells cols 0 r.c with
    | .error e => .error e
    | .ok m =>
      match convertRows cols rs with
      | .error e => .error e
      | .ok ms => .ok (m :: ms)

/-- `GoogleSheetWrapper._convert_query_result`, from the parsed table on. -/
def convert_query_result (t : QueryTable) : Except PyError (List (List (String × PyVal))) :=
  convertRows t.cols t.rows

/-- The attribute state of a `GoogleSheetSession` after `__init__` has run its
first four statements: `spreadsheet_id`, `sheet_name` (and the wrapper, which
the embedded operations receive as a function parameter instead). -/
structure SessionState where
  spreadsheet_id : String
  sheet_name : String
deriving DecidableEq

/-- `self._scratchpad_name` inside `GoogleSheetSession._ensure`:
`GoogleSheetSession` objects carry only the attributes `spreadsheet_id`,
`sheet_name` and `_wrapper`, so the lookup raises `AttributeError`. -/
def sessionGetScratchpadName (_s : SessionState) : Except PyError String :=
  .error (.attributeError "_scratchpad_name")

/-- The `try` body of `GoogleSheetSession._ensure`: evaluate
`self._scratchpad_name`, then call `create_sheet` on the wrapper with it.
`createSheet` models `GoogleSheetWrapper.create_sheet` on the session's
wrapper, returning the new sheet id or any service failure. -/
def ensureBody (createSheet : String → String → Except PyError String)
    (s : SessionState) : Except PyError Unit :=
  match sessionGetScratchpadName s with
  | .error e => .error e
  | .ok nm =>
    match createSheet s.spreadsheet_id nm with
    | .error e => .error e
    | .ok _ => .ok ()

/-- `GoogleSheetSession._ensure`: the body runs under
`try: ... except Exception: pass`, so every `Exception` it raises is
swallowed. -/
def ensure (createSheet : String → String → Except PyError String)
    (s : SessionState) : Except PyError Unit :=
  match ensureBody createSheet s with
  | .ok _ => .ok ()
  | .error _ => .ok ()

/-- `GoogleSheetSession.__init__`: store the ids, then run `_ensure`. -/
def sessionInit (createSheet : String → String → Except PyError String)
    (sid sheet : String) : Except PyError SessionState :=
  let s : SessionState := { spreadsheet_id := sid, sheet_name := sheet }
  match ensure createSheet s with
  | .error e => .error e
  | .ok _ => .ok s

/-- `GoogleSheetScratchpad.SCRATCHPAD_BOOKED_VALUE`. -/
def SCRATCHPAD_BOOKED_VALUE : String := "BOOKED"

/-- The attribute state of a `GoogleSheetScratchpad` (beyond its `_session`,
whose operations the embedded methods receive as function parameters):
`scratchpad_cell` models `self._scratchpad_cell`, with `none` for
unset/`None`. -/
structure ScratchpadState where
  scratchpad_cell : Option A1Range
deriving DecidableEq

/-- `GoogleSheetScratchpad._book_scratchpad_cell`: overwrite the sheet's range
with the sentinel through the session (`overwrite` models
`session.overwrite_rows`), assign the confirmed range to
`self._scratchpad_cell` — and then fall off the end of the function body, so
despite its `-> A1Range` annotation Python returns `None`.  The result is the
new attribute state paired with the returned value. -/
def book_scratchpad_cell
    (overwrite : A1Range → List (List PyVal) → InsertRowsResult)
    (sheet : String) (st : ScratchpadState) : ScratchpadState × Option A1Range :=
  let result := overwrite (A1Range.ofText sheet) [[PyVal.str SCRATCHPAD_BOOKED_VALUE]]
  ({ st with scratchpad_cell := some result.updated_range }, Option.none)

/-- `GoogleSheetScratchpad.__init__`: store the session and assign
`self._scratchpad_cell = self._book_scratchpad_cell()` — the RETURN VALUE of
the booking call, which is `None`, overwriting the range the call itself
recorded. -/
def scratchpad_init
    (overwrite : A1Range → List (List PyVal) → InsertRowsResult)
    (sheet : String) : ScratchpadState :=
  let p := book_scratchpad_cell overwrite sheet { scratchpad_cell := Option.none }
  { p.fst with scratchpad_cell := p.snd }

/-- `GoogleSheetScratchpad.execute`: the body evaluates
`self._wrapper.update_rows(self._spreadsheet_id, ...)`, but
`GoogleSheetScratchpad` objects carry only the attributes `_session` and
`_scratchpad_cell`, so the very first lookup `self._wrapper` raises
`AttributeError` before any request is issued, whatever the state and
formula. -/
def scratchpad_execute (_st : ScratchpadState) (_formula : String) : Except PyError PyVal :=
  .error (.attributeError "_wrapper")

/-- `GoogleSheetScratchpad.close`: the body evaluates
`self._wrapper.clear(self._spreadsheet_id, ...)`, which raises
`AttributeError` for the same reason as `execute`; no released/closed state is
recorded anywhere. -/
def scratchpad_close (_st : ScratchpadState) : Except PyError Unit :=
  .error (.attributeError "_wrapper")

/-- A session overwrite that confirms the fixed range `Sheet1!A1`, used as a
concrete service behavior below. -/
def overwriteA1 : A1Range → List (List PyVal) → InsertRowsResult := fun _ _ =>
  { updated_range := A1Range.ofText "Sheet1!A1"
    updated_rows := 1
    updated_columns := 1
    updated_cells := 1
    inserted_values := [[PyVal.str "BOOKED"]] }

/-- A service reply entry used as a concrete input below. -/
def respB2 : UpdateValuesResponse :=
  { updatedRange := "Sheet1!A1:B1"
    updatedRows := 1
    updatedColumns := 2
    updatedCells := 2
    updatedDataValues := some [[PyVal.int 1, PyVal.int 2]] }

/-- A service that answers every batch-update request list with one `respB2`
per request. -/
def serviceB2 : List BatchUpdateRowsRequest → List UpdateValuesResponse :=
  fun rs => rs.map (fun _ => respB2)

/-- A concrete one-request batch. -/
def requestsB2 : List BatchUpdateRowsRequest :=
  [{ range := A1Range.ofText "Sheet1!A1:B1", values := [[PyVal.int 1, PyVal.int 2]] }]

/-- A one-row, one-column table whose only cell is falsy (JSON null). -/
def tableNullCell : QueryTable :=
  { cols := [{ id := "A", type := "string" }]
    rows := [{ c := [Option.none] }] }

/- ------------------------------------------------------------------ -/
/- Theorems                                                           -/
/- ------------------------------------------------------------------ -/

/-- Claim C1, counterexample: a cell whose raw value is JSON null but whose
declared column type is the unsupported `"object"` does NOT fail — decoding
returns `None` — so the claim as stated (every cell of unsupported type fails)
is false. -/
theorem parse_cell_unsupported_null_ok :
    parse_cell (some { v := PyVal.none, f := Option.none }) { id := "A", type := "object" }
      = .ok PyVal.none := by
  rfl

/-- Claim C1 (amended): for every cell whose raw value is non-null and whose
declared column type is none of the six supported ones, decoding fails with
the unsupported-type error — a `ValueError` whose message names the offending
column type — rather than returning a coerced value. -/
theorem parse_cell_unsupported_type_fails
    (c : Cell) (col : QueryCol)
    (hv : c.v ≠ PyVal.none)
    (ht : col.type ∉ (["boolean", "number", "string", "date", "datetime", "timeofday"] : List String)) :
    parse_cell (some c) col
      = .error (.valueError ("cell type " ++ col.type ++ " is not supported")) := by
  simp only [List.mem_cons, List.not_mem_nil, or_false, not_or] at ht
  obtain ⟨h1, h2, h3, h4, h5, h6⟩ := ht
  simp [parse_cell, hv, h1, h2, h3, h4, h5, h6]

/-- Witness for the amended C1 at a concrete cell of type `"object"`. -/
theorem parse_cell_unsupported_type_fails_witness :
    (({ v := PyVal.str "x", f := Option.none } : Cell).v ≠ PyVal.none)
    ∧ (({ id := "A", type := "object" } : QueryCol).type
        ∉ (["boolean", "number", "string", "date", "datetime", "timeofday"] : List String))
    ∧ parse_cell (some { v := PyVal.str "x", f := Option.none }) { id := "A", type := "object" }
        = .error (.valueError ("cell type " ++ "object" ++ " is not supported")) :=
  ⟨by decide, by decide,
    parse_cell_unsupported_type_fails
      { v := PyVal.str "x", f := Option.none } { id := "A", type := "object" }
      (by decide) (by decide)⟩

/-- Claim C2, counterexample: a falsy (JSON null) cell is skipped by the
conversion — the decoded row mapping for a one-null-cell row is empty, with no
entry at all under the column's name, rather than mapping the name to null. -/
theorem convert_query_result_null_cell_skipped :
    convert_query_result tableNullCell = .ok [[]]
    ∧ ("A", PyVal.none) ∉ ([] : List (String × PyVal)) := by
  exact ⟨rfl, by simp⟩

/-- Claim C2 (amended): a cell present with a null raw value decodes to null
(for every column type), and a falsy/absent cell itself is handled without
error — `_parse_cell` would return null for it, but `_convert_query_result`
skips it, so its column contributes no entry to the decoded row mapping. -/
theorem null_cell_decodes_to_none
    (col : QueryCol) (f : Option String)
    (cols : List QueryCol) (i : Nat) (rest : List (Option Cell)) :
    parse_cell (some { v := PyVal.none, f := f }) col = .ok PyVal.none
    ∧ parse_cell Option.none col = .ok PyVal.none
    ∧ convertCells cols i (Option.none :: rest) = convertCells cols (i + 1) rest := by
  exact ⟨rfl, rfl, rfl⟩

/-- Claim C3: when the service reply carries one response entry per submitted
request (the batchUpdate contract), `batch_update_rows` returns exactly one
`UpdateRowsResult` per request, in submission order, each built by
`mkUpdateRowsResult` from the corresponding response entry. -/
theorem batch_update_rows_per_request
    (service : List BatchUpdateRowsRequest → List UpdateValuesResponse)
    (requests : List BatchUpdateRowsRequest)
    (hlen : (service requests).length = requests.length) :
    (batch_update_rows service requests).length = requests.length
    ∧ ∀ i : Nat, (batch_update_rows service requests)[i]?
        = ((service requests)[i]?).map mkUpdateRowsResult := by
  constructor
  · simp [batch_update_rows, hlen]
  · intro i
    simp [batch_update_rows]

/-- Witness for C3 at a concrete one-request batch and a conforming service. -/
theorem batch_update_rows_per_request_witness :
    ((serviceB2 requestsB2).length = requestsB2.length)
    ∧ ((batch_update_rows serviceB2 requestsB2).length = requestsB2.length
        ∧ ∀ i : Nat, (batch_update_rows serviceB2 requestsB2)[i]?
            = ((serviceB2 requestsB2)[i]?).map mkUpdateRowsResult) :=
  ⟨rfl, batch_update_rows_per_request serviceB2 requestsB2 rfl⟩

/-- Claim C4 (code bug): after `close()` — which itself raises
`AttributeError` because the instance has no `_wrapper` attribute and records
no released state — `execute` raises the same `AttributeError`, never an
`InvalidOperationError`, at the concrete post-init state and formula. -/
theorem scratchpad_execute_after_close_not_invalid_operation :
    scratchpad_close { scratchpad_cell := Option.none }
      = .error (.attributeError "_wrapper")
    ∧ scratchpad_execute { scratchpad_cell := Option.none } "=1+1"
        = .error (.attributeError "_wrapper")
    ∧ ∀ msg : String,
        scratchpad_execute { scratchpad_cell := Option.none } "=1+1"
          ≠ .error (.invalidOperationError msg) := by
  refine ⟨rfl, rfl, ?_⟩
  intro msg h
  simp [scratchpad_execute] at h

/-- Claim C5 (code bug): constructing a scratchpad over a session whose
overwrite confirms the range `Sheet1!A1` records `None` as the scratchpad
cell — the range the booking call assigned is clobbered by `__init__` with the
call's missing return value — so the recorded cell is not the confirmed
updated range. -/
theorem scratchpad_init_cell_is_none :
    (scratchpad_init overwriteA1 "Sheet1").scratchpad_cell = Option.none
    ∧ (overwriteA1 (A1Range.ofText "Sheet1") [[PyVal.str SCRATCHPAD_BOOKED_VALUE]]).updated_range
        = A1Range.ofText "Sheet1!A1"
    ∧ (Option.none : Option A1Range) ≠ some (A1Range.ofText "Sheet1!A1") := by
  refine ⟨rfl, rfl, ?_⟩
  intro h
  simp at h

/-- Claim C6: for every number-typed cell with a non-null raw value and a
present formatted string, the decoder ignores the raw value and parses the
FORMATTED string: `float(...)` of it when it contains a decimal point,
`int(...)` of it otherwise (parse failures propagate as the parse's own
error). -/
theorem parse_cell_number_formatted_string
    (v : PyVal) (f : String) (cid : String)
    (hv : v ≠ PyVal.none) :
    parse_cell (some { v := v, f := some f }) { id := cid, type := "number" }
      = (if f.contains '.' then
          match pyFloat f with
          | .error e => .error e
          | .ok x => .ok (PyVal.float x)
        else
          match pyInt f with
          | .error e => .error e
          | .ok n => .ok (PyVal.int n)) := by
  simp [parse_cell, hv, Cell.getF]

/-- Witness for C6: a number cell whose raw value is the string `"999"` but
whose formatted value `"12"` has no decimal point decodes to the integer parse
of the formatted string. -/
theorem parse_cell_number_formatted_string_witness :
    (PyVal.str "999" ≠ PyVal.none)
    ∧ parse_cell (some { v := PyVal.str "999", f := some "12" }) { id := "A", type := "number" }
        = (if ("12" : String).contains '.' then
            match pyFloat "12" with
            | .error e => .error e
            | .ok x => .ok (PyVal.float x)
          else
            match pyInt "12" with
            | .error e => .error e
            | .ok n => .ok (PyVal.int n)) :=
  ⟨by decide, parse_cell_number_formatted_string (PyVal.str "999") "12" "A" (by decide)⟩

/-- Claim C7 (code bug): `execute` raises `AttributeError` on every state and
formula — the body reads the nonexistent `self._wrapper` attribute — so no
update is issued and no evaluated value is ever returned. -/
theorem scratchpad_execute_raises_attribute_error :
    ∀ (st : ScratchpadState) (formula : String),
      scratchpad_execute st formula = .error (.attributeError "_wrapper") :=
  fun _ _ => rfl

/-- Claim C8: for every cell of declared type date, datetime or timeofday with
a non-null raw value and a present formatted string, decoding returns the
formatted string verbatim as a plain string value. -/
theorem parse_cell_datelike_formatted_verbatim
    (v : PyVal) (s cid typ : String)
    (hv : v ≠ PyVal.none)
    (ht : typ = "date" ∨ typ = "datetime" ∨ typ = "timeofday") :
    parse_cell (some { v := v, f := some s }) { id := cid, type := typ }
      = .ok (PyVal.str s) := by
  rcases ht with h | h | h <;> subst h <;> simp [parse_cell, hv, Cell.getF]

/-- Witness for C8 at a concrete datetime cell. -/
theorem parse_cell_datelike_formatted_verbatim_witness :
    (PyVal.bool true ≠ PyVal.none)
    ∧ (("datetime" : String) = "date" ∨ ("datetime" : String) = "datetime"
        ∨ ("datetime" : String) = "timeofday")
    ∧ parse_cell (some { v := PyVal.bool true, f := some "Jan 1, 2000" })
        { id := "A", type := "datetime" } = .ok (PyVal.str "Jan 1, 2000") :=
  ⟨by decide, by decide,
    parse_cell_datelike_formatted_verbatim (PyVal.bool true) "Jan 1, 2000" "A" "datetime"
      (by decide) (by decide)⟩

/-- Claim C9: converting a query reply whose table has zero rows returns the
empty list and raises nothing, whatever the column schema. -/
theorem convert_query_result_empty_table (cols : List QueryCol) :
    convert_query_result { cols := cols, rows := [] } = .ok [] := by
  rfl

/-- Claim C10: constructing a `GoogleSheetSession` never raises from its
sheet-creation step: whatever the wrapper's `create_sheet` would do, the
`try/except Exception: pass` in `_ensure` suppresses every exception the
attempt raises (in this code the attempt always fails on the nonexistent
`self._scratchpad_name` attribute before reaching the service, and that
`AttributeError` is swallowed too), and the session comes back with its ids
set and usable. -/
theorem session_init_suppresses_create_sheet_errors
    (createSheet : String → String → Except PyError String) (sid sheet : String) :
    sessionInit createSheet sid sheet = .ok { spreadsheet_id := sid, sheet_name := sheet } := by
  rfl
